import Mathlib

/-!
Verification of the agentmarket settlement and reputation core.

The development shallowly embeds the three on-chain programs
(marketplace-escrow, royalty-splitter, reputation-system) found in
src/programs/*/src/lib.rs.  Machine integers (u8, u32, u64) are modelled
as natural numbers together with explicit range checks; string payloads
are modelled by their lengths, which is the only aspect the programs
inspect or that the claims mention; fields written from the substrate
clock (timestamps) are omitted.  Every instruction handler becomes a
function returning `Except`, so that a failed handler yields an error and
no mutated state, which is exactly the all-or-nothing transaction
semantics the substrate provides.
-/

namespace AgentMarket

/-- Size of the u64 value domain, 2 to the 64. -/
def U64_MOD : ℕ := 18446744073709551616

/-- Size of the u32 value domain, 2 to the 32. -/
def U32_MOD : ℕ := 4294967296

/-- Size of the u8 value domain. -/
def U8_MOD : ℕ := 256

/-- Modelled from the spec: the build profile that fixes Rust's integer
overflow behaviour (overflow-checks) is not part of src/; the spec demands
that arithmetic overflow "must be trapped, not silently wrapped", so u64
multiplication is modelled as checked: `none` is the trap that aborts the
whole instruction. -/
def u64Mul (x y : ℕ) : Option ℕ :=
  if x * y < U64_MOD then some (x * y) else none

/-- Modelled from the spec: checked u64 addition, see `u64Mul`. -/
def u64Add (x y : ℕ) : Option ℕ :=
  if x + y < U64_MOD then some (x + y) else none

/-- Modelled from the spec: checked u64 subtraction; underflow traps. -/
def u64Sub (x y : ℕ) : Option ℕ :=
  if y ≤ x then some (x - y) else none

/-- Modelled from the spec: checked u8 addition, see `u64Mul`. -/
def u8Add (x y : ℕ) : Option ℕ :=
  if x + y < U8_MOD then some (x + y) else none

/-- One lamport transfer step `src -= amt; dst += amt` as both programs
perform it on borrowed account lamports, with checked u64 arithmetic. -/
def transferLamports (src dst amt : ℕ) : Option (ℕ × ℕ) :=
  match u64Sub src amt with
  | none => none
  | some src2 =>
    match u64Add dst amt with
    | none => none
    | some dst2 => some (src2, dst2)

/-- The three-way split calculator shared by `approve_result`
(marketplace-escrow lib.rs lines 106-110, with the fixed 85/10/5 policy)
and `distribute_payment` (royalty-splitter lib.rs lines 58-61, with the
configured shares): `a = amount * s1 / 100`, `b = amount * s2 / 100`,
`c = amount - a - b`, all in u64. -/
def splitCalc (amount s1 s2 : ℕ) : Option (ℕ × ℕ × ℕ) :=
  match u64Mul amount s1 with
  | none => none
  | some p1 =>
    match u64Mul amount s2 with
    | none => none
    | some p2 =>
      match u64Sub amount (p1 / 100) with
      | none => none
      | some r1 =>
        match u64Sub r1 (p2 / 100) with
        | none => none
        | some c => some (p1 / 100, p2 / 100, c)

/-- The fixed 85 percent creator, 10 percent platform, 5 percent treasury
split used by `approve_result`. -/
def escrowSplit (amount : ℕ) : Option (ℕ × ℕ × ℕ) :=
  splitCalc amount 85 10

/-! ## Marketplace escrow (src/programs/marketplace-escrow/src/lib.rs) -/

/-- Model of `RequestStatus` from marketplace-escrow lib.rs. -/
inductive RequestStatus
  | Pending
  | InProgress
  | Completed
  | Approved
  | Disputed
  | Cancelled
deriving DecidableEq

/-- Model of `ServiceRequest` account.  Pubkeys are opaque naturals; `request_data`
and `result_data` hold the payload lengths (the programs only inspect
lengths); clock-sourced timestamp fields are omitted. -/
structure ServiceRequest where
  agent_id : ℕ
  user : ℕ
  amount : ℕ
  status : RequestStatus
  request_data : ℕ
  result_data : ℕ
deriving DecidableEq

/-- The accounts an escrow instruction touches: the request plus the
lamport balances of the escrow PDA and of the payout wallets. -/
structure EscrowState where
  req : ServiceRequest
  escrow : ℕ
  userBal : ℕ
  creatorBal : ℕ
  platformBal : ℕ
  treasuryBal : ℕ
deriving DecidableEq

/-- Model of `ErrorCode` of marketplace-escrow, extended with the arithmetic trap
(a panicking overflow check aborts the instruction like an error does). -/
inductive EscrowError
  | InvalidAmount
  | RequestDataTooLong
  | ResultDataTooLong
  | InvalidRequestStatus
  | UnauthorizedUser
  | DisputeReasonTooLong
  | CannotCancelRequest
  | ArithmeticOverflow
deriving DecidableEq

/-- Model of `submit_result` (lib.rs lines 61-87).  The `agent_authority` signer is
passed through exactly as in the source: the handler never compares it to
any stored field ("Agent authority will be verified by the client"). -/
def submit_result (agent_authority : ℕ) (result_len : ℕ) (st : EscrowState) :
    Except EscrowError EscrowState :=
  if result_len > 2000 then .error .ResultDataTooLong
  else if st.req.status = RequestStatus.Pending ∨ st.req.status = RequestStatus.InProgress then
    .ok { st with req := { st.req with
                           status := RequestStatus.Completed
                           result_data := result_len } }
  else .error .InvalidRequestStatus

/-- Model of `approve_result` (lib.rs lines 89-139): requires status Completed and
caller equal to the stored requester, sets status Approved, splits the
escrowed amount 85/10/5 and transfers the three parts out of escrow. -/
def approve_result (caller : ℕ) (st : EscrowState) : Except EscrowError EscrowState :=
  if st.req.status = RequestStatus.Completed then
    if st.req.user = caller then
      match escrowSplit st.req.amount with
      | none => .error .ArithmeticOverflow
      | some (creator_amount, platform_amount, treasury_amount) =>
        match transferLamports st.escrow st.creatorBal creator_amount with
        | none => .error .ArithmeticOverflow
        | some (e1, c1) =>
          match transferLamports e1 st.platformBal platform_amount with
          | none => .error .ArithmeticOverflow
          | some (e2, p1) =>
            match transferLamports e2 st.treasuryBal treasury_amount with
            | none => .error .ArithmeticOverflow
            | some (e3, t1) =>
              .ok { st with
                    req := { st.req with status := RequestStatus.Approved }
                    escrow := e3, creatorBal := c1, platformBal := p1, treasuryBal := t1 }
    else .error .UnauthorizedUser
  else .error .InvalidRequestStatus

/-- Model of `dispute_result` (lib.rs lines 141-169). -/
def dispute_result (caller : ℕ) (reason_len : ℕ) (st : EscrowState) :
    Except EscrowError EscrowState :=
  if reason_len > 500 then .error .DisputeReasonTooLong
  else if st.req.status = RequestStatus.Completed then
    if st.req.user = caller then
      .ok { st with req := { st.req with status := RequestStatus.Disputed } }
    else .error .UnauthorizedUser
  else .error .InvalidRequestStatus

/-- Model of `cancel_request` (lib.rs lines 171-203): only from Pending, only by
the stored requester; refunds the escrowed amount. -/
def cancel_request (caller : ℕ) (st : EscrowState) : Except EscrowError EscrowState :=
  if st.req.status = RequestStatus.Pending then
    if st.req.user = caller then
      match transferLamports st.escrow st.userBal st.req.amount with
      | none => .error .ArithmeticOverflow
      | some (e1, u1) =>
        .ok { st with
              req := { st.req with status := RequestStatus.Cancelled }
              escrow := e1, userBal := u1 }
    else .error .UnauthorizedUser
  else .error .CannotCancelRequest

/-! ## Reputation system (src/programs/reputation-system/src/lib.rs) -/

/-- Model of `AgentReputationProfile` account; pubkey and timestamp fields omitted. -/
structure AgentReputationProfile where
  total_ratings : ℕ
  average_rating : ℕ
  quality_score : ℕ
  speed_score : ℕ
  value_score : ℕ
deriving DecidableEq

/-- Model of `Rating` account; pubkeys, timestamps and stored text omitted, text is
kept as its length. -/
structure Rating where
  stars : ℕ
  quality : ℕ
  speed : ℕ
  value : ℕ
  review_len : ℕ
  is_reported : Bool
  is_moderated : Bool
  is_valid : Bool
deriving DecidableEq

/-- Model of `ReputationError`, extended with the arithmetic trap. -/
inductive RepError
  | InvalidRating
  | ReviewTooLong
  | ReasonTooLong
  | NoteTooLong
  | ArithmeticOverflow
deriving DecidableEq

/-- Model of `calculate_weighted_average` (lib.rs lines 184-191): returns the new
value when the count is zero, otherwise
`(current_avg * current_count + new_value) / (current_count + 1)` in u64,
truncated back to u32 by the `as u32` cast. -/
def calculate_weighted_average (current_avg current_count new_value : ℕ) : Option ℕ :=
  if current_count = 0 then some new_value
  else
    match u64Mul current_avg current_count with
    | none => none
    | some t =>
      match u64Add t new_value with
      | none => none
      | some total_score =>
        match u64Add current_count 1 with
        | none => none
        | some d => some (total_score / d % U32_MOD)

/-- The aggregate update of `submit_rating` (lib.rs lines 44-71): the new
count, the inline overall-average recurrence with the `as u32` cast, and
the three sub-score updates through `calculate_weighted_average` applied
at count `total_ratings - 1` (the pre-increment count). -/
def submit_rating_update (p : AgentReputationProfile) (stars quality speed value : ℕ) :
    Option AgentReputationProfile :=
  match u64Add p.total_ratings 1 with
  | none => none
  | some total_ratings =>
    match u64Mul p.average_rating p.total_ratings with
    | none => none
    | some current_total_score =>
      match u64Add current_total_score stars with
      | none => none
      | some new_total_score =>
        match calculate_weighted_average p.quality_score (total_ratings - 1) quality with
        | none => none
        | some q2 =>
          match calculate_weighted_average p.speed_score (total_ratings - 1) speed with
          | none => none
          | some s2 =>
            match calculate_weighted_average p.value_score (total_ratings - 1) value with
            | none => none
            | some v2 =>
              some { p with
                     total_ratings := total_ratings
                     average_rating := new_total_score / total_ratings % U32_MOD
                     quality_score := q2, speed_score := s2, value_score := v2 }

/-- Model of `submit_rating` (lib.rs lines 10-82): validates the four scores and
the review length, then applies the aggregate update. -/
def submit_rating (p : AgentReputationProfile) (stars quality speed value review_len : ℕ) :
    Except RepError AgentReputationProfile :=
  if ¬(1 ≤ stars ∧ stars ≤ 5) then .error .InvalidRating
  else if ¬(1 ≤ quality ∧ quality ≤ 5) then .error .InvalidRating
  else if ¬(1 ≤ speed ∧ speed ≤ 5) then .error .InvalidRating
  else if ¬(1 ≤ value ∧ value ≤ 5) then .error .InvalidRating
  else if review_len > 1000 then .error .ReviewTooLong
  else
    match submit_rating_update p stars quality speed value with
    | none => .error .ArithmeticOverflow
    | some p2 => .ok p2

/-- Model of `initialize_agent_reputation` (lib.rs lines 85-106): a zeroed profile. -/
def initialize_agent_reputation : AgentReputationProfile :=
  { total_ratings := 0, average_rating := 0, quality_score := 0,
    speed_score := 0, value_score := 0 }

/-- Model of `report_rating` (lib.rs lines 125-142): flags the rating, touches no
profile state. -/
def report_rating (r : Rating) (reason_len : ℕ) : Except RepError Rating :=
  if reason_len > 500 then .error .ReasonTooLong
  else .ok { r with is_reported := true }

/-- Model of `moderate_rating` (lib.rs lines 145-180): marks the rating moderated,
and when `is_valid` is false removes the rating's stars from the overall
average only, decrementing the count (resetting both to zero from a count
of at most one).  The quality, speed and value sub-scores are never
touched, and the rating's previous moderation state is never read. -/
def moderate_rating (r : Rating) (p : AgentReputationProfile) (is_valid : Bool)
    (admin_note_len : ℕ) : Except RepError (Rating × AgentReputationProfile) :=
  if admin_note_len > 500 then .error .NoteTooLong
  else
    let r2 : Rating := { r with is_moderated := true, is_valid := is_valid }
    if is_valid then .ok (r2, p)
    else
      if p.total_ratings > 1 then
        match u64Mul p.average_rating p.total_ratings with
        | none => .error .ArithmeticOverflow
        | some current_total =>
          match u64Sub current_total r.stars with
          | none => .error .ArithmeticOverflow
          | some adjusted_total =>
            .ok (r2, { p with
                       total_ratings := p.total_ratings - 1
                       average_rating := adjusted_total / (p.total_ratings - 1) % U32_MOD })
      else .ok (r2, { p with total_ratings := 0, average_rating := 0 })

/-! ## Royalty splitter (src/programs/royalty-splitter/src/lib.rs) -/

/-- Model of `RoyaltyConfig` account; timestamps omitted. -/
structure RoyaltyConfig where
  creator_share : ℕ
  platform_share : ℕ
  treasury_share : ℕ
  platform_wallet : ℕ
  treasury_wallet : ℕ
  admin : ℕ
  total_distributed : ℕ
  total_transactions : ℕ
  is_paused : Bool
deriving DecidableEq

/-- Model of `RoyaltyError`, extended with the arithmetic trap. -/
inductive RoyaltyError
  | InvalidShareTotal
  | InvalidAmount
  | InsufficientFunds
  | UnauthorizedAdmin
  | InvalidPlatformWallet
  | InvalidTreasuryWallet
  | ContractPaused
  | ArithmeticOverflow
deriving DecidableEq

/-- Model of `initialize_config` (lib.rs lines 10-46): validates that the u8 share
triple sums to exactly 100 (the sum itself is checked u8 arithmetic) and
creates the config with zeroed running totals.  `is_paused` is never
assigned by the handler; a fresh account is zero initialised, so false. -/
def initialize_config (creator_share platform_share treasury_share : ℕ)
    (platform_wallet treasury_wallet admin : ℕ) : Except RoyaltyError RoyaltyConfig :=
  match u8Add creator_share platform_share with
  | none => .error .ArithmeticOverflow
  | some s1 =>
    match u8Add s1 treasury_share with
    | none => .error .ArithmeticOverflow
    | some total =>
      if total = 100 then
        .ok { creator_share := creator_share, platform_share := platform_share
              treasury_share := treasury_share, platform_wallet := platform_wallet
              treasury_wallet := treasury_wallet, admin := admin
              total_distributed := 0, total_transactions := 0, is_paused := false }
      else .error .InvalidShareTotal

/-- Model of `update_config` (lib.rs lines 112-159).  The Anchor account constraint
`has_one = admin` compares the signer to the stored admin before the
handler body runs; then any supplied shares overwrite the stored triple,
the post-update triple is revalidated to sum to 100, and finally any
supplied wallets are overwritten. -/
def update_config (caller : ℕ) (cfg : RoyaltyConfig)
    (creator_share platform_share treasury_share : Option ℕ)
    (platform_wallet treasury_wallet : Option ℕ) : Except RoyaltyError RoyaltyConfig :=
  if caller = cfg.admin then
    let c1 : RoyaltyConfig :=
      { cfg with
        creator_share := creator_share.getD cfg.creator_share
        platform_share := platform_share.getD cfg.platform_share
        treasury_share := treasury_share.getD cfg.treasury_share }
    match u8Add c1.creator_share c1.platform_share with
    | none => .error .ArithmeticOverflow
    | some s1 =>
      match u8Add s1 c1.treasury_share with
      | none => .error .ArithmeticOverflow
      | some total =>
        if total = 100 then
          .ok { c1 with
                platform_wallet := platform_wallet.getD cfg.platform_wallet
                treasury_wallet := treasury_wallet.getD cfg.treasury_wallet }
        else .error .InvalidShareTotal
  else .error .UnauthorizedAdmin

/-- The per-distribution audit record (`DistributionRecord`), keeping the
numeric fields the claims mention. -/
structure DistributionRecord where
  total_amount : ℕ
  creator_amount : ℕ
  platform_amount : ℕ
  treasury_amount : ℕ
deriving DecidableEq

/-- The accounts `distribute_payment` touches. -/
structure RoyaltyState where
  config : RoyaltyConfig
  source_balance : ℕ
  creator_balance : ℕ
  platform_balance : ℕ
  treasury_balance : ℕ
deriving DecidableEq

/-- The configured split used by `distribute_payment` (lib.rs 58-61). -/
def configSplit (cfg : RoyaltyConfig) (amount : ℕ) : Option (ℕ × ℕ × ℕ) :=
  splitCalc amount cfg.creator_share cfg.platform_share

/-- Model of `distribute_payment` (lib.rs lines 49-109): pause gate (an account
constraint), amount validation, configured three-way split, source balance
check, three transfers, then the checked running-total updates. -/
def distribute_payment (st : RoyaltyState) (amount : ℕ) :
    Except RoyaltyError (RoyaltyState × DistributionRecord) :=
  if st.config.is_paused then .error .ContractPaused
  else if amount = 0 then .error .InvalidAmount
  else
    match configSplit st.config amount with
    | none => .error .ArithmeticOverflow
    | some (creator_amount, platform_amount, treasury_amount) =>
      if st.source_balance < amount then .error .InsufficientFunds
      else
        match transferLamports st.source_balance st.creator_balance creator_amount with
        | none => .error .ArithmeticOverflow
        | some (s1, c1) =>
          match transferLamports s1 st.platform_balance platform_amount with
          | none => .error .ArithmeticOverflow
          | some (s2, p1) =>
            match transferLamports s2 st.treasury_balance treasury_amount with
            | none => .error .ArithmeticOverflow
            | some (s3, t1) =>
              match u64Add st.config.total_distributed amount with
              | none => .error .ArithmeticOverflow
              | some td =>
                match u64Add st.config.total_transactions 1 with
                | none => .error .ArithmeticOverflow
                | some tt =>
                  .ok ({ config := { st.config with
                                     total_distributed := td
                                     total_transactions := tt }
                         source_balance := s3, creator_balance := c1
                         platform_balance := p1, treasury_balance := t1 },
                       { total_amount := amount, creator_amount := creator_amount
                         platform_amount := platform_amount
                         treasury_amount := treasury_amount })

/-! ## Spec-side reference definitions -/

/-- Modelled from the spec: the incremental weighted-average recurrence
the spec states for `submit_rating`, `new_avg = (old_avg * old_count +
new_value) / (old_count + 1)` with integer truncation, used as the
reference oracle against which the code's update is compared. -/
def specStepAvg (old_avg old_count new_value : ℕ) : ℕ :=
  (old_avg * old_count + new_value) / (old_count + 1)

/-- The profile invariant of the spec, restricted to the overall average
(the amended form of claim C6): a profile with no ratings reports a zero
overall average. -/
def repInvariant (p : AgentReputationProfile) : Prop :=
  p.total_ratings = 0 → p.average_rating = 0

/-- Boolean success test for `Except` results. -/
def isOkE {ε α : Type} : Except ε α → Bool
  | .ok _ => true
  | .error _ => false

deriving instance DecidableEq for Except

/-! ## Helper lemmas on the checked arithmetic -/

theorem u64Mul_some {x y : ℕ} (h : x * y < U64_MOD) : u64Mul x y = some (x * y) := by
  simp [u64Mul, h]

theorem u64Add_some {x y : ℕ} (h : x + y < U64_MOD) : u64Add x y = some (x + y) := by
  simp [u64Add, h]

theorem u64Sub_some {x y : ℕ} (h : y ≤ x) : u64Sub x y = some (x - y) := by
  simp [u64Sub, h]

theorem u8Add_some {x y : ℕ} (h : x + y < U8_MOD) : u8Add x y = some (x + y) := by
  simp [u8Add, h]

theorem u64Mul_ok {x y z : ℕ} (h : u64Mul x y = some z) :
    z = x * y ∧ x * y < U64_MOD := by
  unfold u64Mul at h
  split at h
  · cases h; exact ⟨rfl, by assumption⟩
  · cases h

theorem u64Add_ok {x y z : ℕ} (h : u64Add x y = some z) :
    z = x + y ∧ x + y < U64_MOD := by
  unfold u64Add at h
  split at h
  · cases h; exact ⟨rfl, by assumption⟩
  · cases h

theorem u64Sub_ok {x y z : ℕ} (h : u64Sub x y = some z) :
    z = x - y ∧ y ≤ x := by
  unfold u64Sub at h
  split at h
  · cases h; exact ⟨rfl, by assumption⟩
  · cases h

theorem u8Add_ok {x y z : ℕ} (h : u8Add x y = some z) :
    z = x + y ∧ x + y < U8_MOD := by
  unfold u8Add at h
  split at h
  · cases h; exact ⟨rfl, by assumption⟩
  · cases h

theorem transferLamports_some {src dst amt : ℕ} (h1 : amt ≤ src)
    (h2 : dst + amt < U64_MOD) :
    transferLamports src dst amt = some (src - amt, dst + amt) := by
  unfold transferLamports
  rw [u64Sub_some h1, u64Add_some h2]

/-! ## Split calculator lemmas -/

/-- The two floored percentage parts never exceed the amount when the
shares sum to at most 100. -/
theorem split_parts_le {amount s1 s2 : ℕ} (h : s1 + s2 ≤ 100) :
    amount * s1 / 100 + amount * s2 / 100 ≤ amount := by
  have key : (amount * s1 / 100 + amount * s2 / 100) * 100 ≤ amount * 100 := by
    calc (amount * s1 / 100 + amount * s2 / 100) * 100
        = amount * s1 / 100 * 100 + amount * s2 / 100 * 100 := by ring
      _ ≤ amount * s1 + amount * s2 :=
          Nat.add_le_add (Nat.div_mul_le_self _ _) (Nat.div_mul_le_self _ _)
      _ = amount * (s1 + s2) := by ring
      _ ≤ amount * 100 := Nat.mul_le_mul_left amount h
  exact Nat.le_of_mul_le_mul_right key (by norm_num)

/-- Evaluation of the split calculator on in-range inputs: both floored
parts, the remainder, and nothing trapped. -/
theorem splitCalc_spec {amount s1 s2 : ℕ} (h : s1 + s2 ≤ 100)
    (h1 : amount * s1 < U64_MOD) (h2 : amount * s2 < U64_MOD) :
    splitCalc amount s1 s2 =
      some (amount * s1 / 100, amount * s2 / 100,
            amount - amount * s1 / 100 - amount * s2 / 100) := by
  have hab := @split_parts_le amount s1 s2 h
  have ha : amount * s1 / 100 ≤ amount := le_trans (Nat.le_add_right _ _) hab
  have hb : amount * s2 / 100 ≤ amount - amount * s1 / 100 := by omega
  simp only [splitCalc, u64Mul_some h1, u64Mul_some h2, u64Sub_some ha, u64Sub_some hb]

/-- Whenever the split calculator returns a result, the three parts sum
back to the amount exactly. -/
theorem splitCalc_sum {amount s1 s2 a b c : ℕ}
    (h : splitCalc amount s1 s2 = some (a, b, c)) : a + b + c = amount := by
  unfold splitCalc at h
  split at h
  · cases h
  split at h
  · cases h
  split at h
  · cases h
  split at h
  · cases h
  rename_i x1 p1 hm1 x2 p2 hm2 x3 r1 hs1 x4 c2 hs2
  cases h
  obtain ⟨hr1, hle1⟩ := u64Sub_ok hs1
  obtain ⟨hc2, hle2⟩ := u64Sub_ok hs2
  omega

/-! ## Reputation aggregation lemmas -/

/-- The truncated incremental mean is bounded by any common bound of its
two inputs. -/
theorem stepAvg_le {a v c m : ℕ} (ha : a ≤ m) (hv : v ≤ m) :
    (a * c + v) / (c + 1) ≤ m := by
  have hle : a * c + v ≤ m * (c + 1) := by
    have := Nat.mul_le_mul_right c ha
    calc a * c + v ≤ m * c + m := by omega
      _ = m * (c + 1) := by ring
  calc (a * c + v) / (c + 1) ≤ m * (c + 1) / (c + 1) := Nat.div_le_div_right hle
    _ = m := Nat.mul_div_cancel _ (Nat.succ_pos c)

/-- Inversion for `calculate_weighted_average`: on score-bounded inputs a
successful call returns exactly the spec recurrence (the u32 cast never
truncates because the quotient is at most 5). -/
theorem cwa_ok {a c v r : ℕ} (ha : a ≤ 5) (hv : v ≤ 5)
    (h : calculate_weighted_average a c v = some r) :
    r = specStepAvg a c v := by
  unfold calculate_weighted_average at h
  split at h
  · rename_i h0
    cases h
    simp [specStepAvg, h0]
  · split at h
    · cases h
    split at h
    · cases h
    split at h
    · cases h
    rename_i x1 t ht x2 total htot x3 d hd
    cases h
    obtain ⟨ht1, _⟩ := u64Mul_ok ht
    obtain ⟨htot1, _⟩ := u64Add_ok htot
    obtain ⟨hd1, _⟩ := u64Add_ok hd
    subst ht1 htot1 hd1
    have hb : (a * c + v) / (c + 1) ≤ 5 := stepAvg_le ha hv
    unfold specStepAvg
    exact Nat.mod_eq_of_lt (by unfold U32_MOD; omega)

/-- Weak inversion of the aggregate update: the count always increments
exactly, and the overall-average arithmetic stayed in u64 range. -/
theorem submit_update_total {p p' : AgentReputationProfile} {stars q s v : ℕ}
    (h : submit_rating_update p stars q s v = some p') :
    p'.total_ratings = p.total_ratings + 1 ∧
    p.average_rating * p.total_ratings + stars < U64_MOD := by
  unfold submit_rating_update at h
  split at h
  · cases h
  split at h
  · cases h
  split at h
  · cases h
  split at h
  · cases h
  split at h
  · cases h
  split at h
  · cases h
  rename_i x1 T hT x2 cts hcts x3 nts hnts x4 q2 hq2 x5 s2 hs2 x6 v2 hv2
  cases h
  obtain ⟨hT1, _⟩ := u64Add_ok hT
  obtain ⟨hc1, _⟩ := u64Mul_ok hcts
  obtain ⟨hn1, hn2⟩ := u64Add_ok hnts
  subst hT1 hc1 hn1
  exact ⟨rfl, hn2⟩

/-- Full inversion of the aggregate update on score-bounded profiles: the
new stored values are exactly the spec recurrence applied to the old ones,
and the score bounds are preserved. -/
theorem submit_update_spec {p p' : AgentReputationProfile} {stars q s v : ℕ}
    (hA : p.average_rating ≤ 5) (hQ : p.quality_score ≤ 5)
    (hS : p.speed_score ≤ 5) (hV : p.value_score ≤ 5)
    (hst : stars ≤ 5) (hq : q ≤ 5) (hs : s ≤ 5) (hv : v ≤ 5)
    (h : submit_rating_update p stars q s v = some p') :
    p'.total_ratings = p.total_ratings + 1 ∧
    p'.average_rating = specStepAvg p.average_rating p.total_ratings stars ∧
    p'.quality_score = specStepAvg p.quality_score p.total_ratings q ∧
    p'.speed_score = specStepAvg p.speed_score p.total_ratings s ∧
    p'.value_score = specStepAvg p.value_score p.total_ratings v ∧
    p'.average_rating ≤ 5 ∧ p'.quality_score ≤ 5 ∧
    p'.speed_score ≤ 5 ∧ p'.value_score ≤ 5 := by
  unfold submit_rating_update at h
  split at h
  · cases h
  split at h
  · cases h
  split at h
  · cases h
  split at h
  · cases h
  split at h
  · cases h
  split at h
  · cases h
  rename_i x1 T hT x2 cts hcts x3 nts hnts x4 q2 hq2 x5 s2 hs2 x6 v2 hv2
  cases h
  obtain ⟨hT1, _⟩ := u64Add_ok hT
  obtain ⟨hc1, _⟩ := u64Mul_ok hcts
  obtain ⟨hn1, _⟩ := u64Add_ok hnts
  subst hT1 hc1 hn1
  have hTm : p.total_ratings + 1 - 1 = p.total_ratings := by omega
  rw [hTm] at hq2 hs2 hv2
  have hq2s := cwa_ok hQ hq hq2
  have hs2s := cwa_ok hS hs hs2
  have hv2s := cwa_ok hV hv hv2
  have havg : (p.average_rating * p.total_ratings + stars) / (p.total_ratings + 1) ≤ 5 :=
    stepAvg_le hA hst
  have hmod :
      (p.average_rating * p.total_ratings + stars) / (p.total_ratings + 1) % U32_MOD =
        specStepAvg p.average_rating p.total_ratings stars := by
    unfold specStepAvg
    exact Nat.mod_eq_of_lt (by unfold U32_MOD; omega)
  refine ⟨rfl, ?_, hq2s, hs2s, hv2s, ?_, ?_, ?_, ?_⟩
  · exact hmod
  · show (p.average_rating * p.total_ratings + stars) / (p.total_ratings + 1) % U32_MOD ≤ 5
    rw [hmod]; unfold specStepAvg; exact havg
  · rw [hq2s]; unfold specStepAvg; exact stepAvg_le hQ hq
  · rw [hs2s]; unfold specStepAvg; exact stepAvg_le hS hs
  · rw [hv2s]; unfold specStepAvg; exact stepAvg_le hV hv

/-- Inversion of `submit_rating`: success implies the validations passed
and the aggregate update succeeded. -/
theorem submit_rating_ok_inv {p p' : AgentReputationProfile}
    {stars q s v rl : ℕ}
    (h : submit_rating p stars q s v rl = .ok p') :
    (1 ≤ stars ∧ stars ≤ 5) ∧ (1 ≤ q ∧ q ≤ 5) ∧ (1 ≤ s ∧ s ≤ 5) ∧
    (1 ≤ v ∧ v ≤ 5) ∧ rl ≤ 1000 ∧
    submit_rating_update p stars q s v = some p' := by
  unfold submit_rating at h
  split at h
  · cases h
  split at h
  · cases h
  split at h
  · cases h
  split at h
  · cases h
  split at h
  · cases h
  rename_i hstars hq hs hv hrl
  split at h
  · cases h
  rename_i p2 hp2
  cases h
  exact ⟨not_not.mp hstars, not_not.mp hq, not_not.mp hs, not_not.mp hv,
    by omega, hp2⟩

/-! ## Moderation lemmas -/

/-- Behaviour of `moderate_rating` with `is_valid = false` on a profile with at most
one rating resets count and overall average to zero, touching nothing
else. -/
theorem moderate_invalid_one {r : Rating} {p : AgentReputationProfile} {nl : ℕ}
    (hnl : nl ≤ 500) (hc : p.total_ratings ≤ 1) :
    moderate_rating r p false nl =
      .ok ({ r with is_moderated := true, is_valid := false },
           { p with total_ratings := 0, average_rating := 0 }) := by
  unfold moderate_rating
  have h1 : ¬(nl > 500) := by omega
  have h2 : ¬(p.total_ratings > 1) := by omega
  simp [h1, h2]

/-- Behaviour of `moderate_rating` with `is_valid = false` on a profile with more than
one rating subtracts the stars from the accumulated total, decrements the
count by one, and truncating-divides; sub-scores are untouched.  The
bounds reflect any profile reachable by valid ratings (averages at most 5)
that is well inside the u64 count range. -/
theorem moderate_invalid_gt1 {r : Rating} {p : AgentReputationProfile} {nl : ℕ}
    (hnl : nl ≤ 500) (hc : 1 < p.total_ratings)
    (hs : r.stars ≤ p.average_rating * p.total_ratings)
    (ha : p.average_rating ≤ 5)
    (hb : p.total_ratings < 2305843009213693952) :
    moderate_rating r p false nl =
      .ok ({ r with is_moderated := true, is_valid := false },
           { p with total_ratings := p.total_ratings - 1,
                    average_rating :=
                      (p.average_rating * p.total_ratings - r.stars) /
                        (p.total_ratings - 1) }) := by
  have hmul : p.average_rating * p.total_ratings < U64_MOD := by
    have := Nat.mul_le_mul_right p.total_ratings ha
    unfold U64_MOD
    omega
  have hq10 : p.average_rating * p.total_ratings - r.stars ≤ 10 * (p.total_ratings - 1) := by
    have := Nat.mul_le_mul_right p.total_ratings ha
    omega
  have hquot : (p.average_rating * p.total_ratings - r.stars) / (p.total_ratings - 1) ≤ 10 := by
    calc (p.average_rating * p.total_ratings - r.stars) / (p.total_ratings - 1)
        ≤ 10 * (p.total_ratings - 1) / (p.total_ratings - 1) := Nat.div_le_div_right hq10
      _ = 10 := Nat.mul_div_cancel _ (by omega)
  have h1 : ¬(nl > 500) := by omega
  unfold moderate_rating
  simp only [h1, if_false, Bool.false_eq_true, hc, if_true,
    u64Mul_some hmul, u64Sub_some hs]
  have hm : (p.average_rating * p.total_ratings - r.stars) / (p.total_ratings - 1) % U32_MOD =
      (p.average_rating * p.total_ratings - r.stars) / (p.total_ratings - 1) :=
    Nat.mod_eq_of_lt (by unfold U32_MOD; omega)
  simp [hm]

/-- Case analysis of a successful `moderate_rating` as it affects the
profile. -/
theorem moderate_ok_cases {r r' : Rating} {p p' : AgentReputationProfile}
    {b : Bool} {nl : ℕ}
    (h : moderate_rating r p b nl = .ok (r', p')) :
    p' = p ∨ (1 < p.total_ratings ∧ p'.total_ratings = p.total_ratings - 1) ∨
    (p'.total_ratings = 0 ∧ p'.average_rating = 0) := by
  unfold moderate_rating at h
  split at h
  · cases h
  split at h
  · cases h
    exact Or.inl rfl
  split at h
  · split at h
    · cases h
    split at h
    · cases h
    rename_i hgt x1 ct hct x2 at2 hat
    cases h
    exact Or.inr (Or.inl ⟨hgt, rfl⟩)
  · cases h
    exact Or.inr (Or.inr ⟨rfl, rfl⟩)

/-! ## Escrow state machine lemmas -/

/-- Behaviour of `submit_result` succeeds from Pending or InProgress with a bounded
payload and lands in Completed. -/
theorem submit_result_ok {auth rl : ℕ} {st : EscrowState} (hrl : rl ≤ 2000)
    (hst : st.req.status = RequestStatus.Pending ∨
           st.req.status = RequestStatus.InProgress) :
    submit_result auth rl st =
      .ok { st with req := { st.req with
                             status := RequestStatus.Completed
                             result_data := rl } } := by
  unfold submit_result
  have h1 : ¬(rl > 2000) := by omega
  simp [h1, hst]

/-- Behaviour of `submit_result` from any other status fails with the state error. -/
theorem submit_result_wrong_status {auth rl : ℕ} {st : EscrowState}
    (hrl : rl ≤ 2000)
    (h1 : st.req.status ≠ RequestStatus.Pending)
    (h2 : st.req.status ≠ RequestStatus.InProgress) :
    submit_result auth rl st = .error .InvalidRequestStatus := by
  unfold submit_result
  have h0 : ¬(rl > 2000) := by omega
  simp [h0, h1, h2]

/-- Behaviour of `approve_result` from a Completed request by the stored requester:
splits 85/10/5 and pays out, ending in Approved. -/
theorem approve_result_ok {caller : ℕ} {st : EscrowState}
    (hst : st.req.status = RequestStatus.Completed)
    (hu : st.req.user = caller)
    (h85 : st.req.amount * 85 < U64_MOD)
    (hesc : st.req.amount ≤ st.escrow)
    (hcb : st.creatorBal + st.req.amount < U64_MOD)
    (hpb : st.platformBal + st.req.amount < U64_MOD)
    (htb : st.treasuryBal + st.req.amount < U64_MOD) :
    approve_result caller st =
      .ok { st with
            req := { st.req with status := RequestStatus.Approved }
            escrow := st.escrow - st.req.amount * 85 / 100 - st.req.amount * 10 / 100 -
              (st.req.amount - st.req.amount * 85 / 100 - st.req.amount * 10 / 100)
            creatorBal := st.creatorBal + st.req.amount * 85 / 100
            platformBal := st.platformBal + st.req.amount * 10 / 100
            treasuryBal := st.treasuryBal +
              (st.req.amount - st.req.amount * 85 / 100 - st.req.amount * 10 / 100) } := by
  have h10 : st.req.amount * 10 < U64_MOD :=
    lt_of_le_of_lt (Nat.mul_le_mul_left _ (by norm_num)) h85
  have hsum : (85 : ℕ) + 10 ≤ 100 := by norm_num
  have hsplit := @splitCalc_spec st.req.amount 85 10 hsum h85 h10
  have hab := @split_parts_le st.req.amount 85 10 hsum
  have ha : st.req.amount * 85 / 100 ≤ st.req.amount :=
    le_trans (Nat.le_add_right _ _) hab
  have hbp : st.req.amount * 10 / 100 ≤ st.req.amount :=
    le_trans (Nat.le_add_left _ _) hab
  have t1 := @transferLamports_some
    st.escrow st.creatorBal (st.req.amount * 85 / 100)
    (by omega) (by omega)
  have t2 := @transferLamports_some
    (st.escrow - st.req.amount * 85 / 100) st.platformBal
    (st.req.amount * 10 / 100) (by omega) (by omega)
  have t3 := @transferLamports_some
    (st.escrow - st.req.amount * 85 / 100 - st.req.amount * 10 / 100)
    st.treasuryBal
    (st.req.amount - st.req.amount * 85 / 100 - st.req.amount * 10 / 100)
    (by omega) (by omega)
  unfold approve_result escrowSplit
  simp only [hst, hu, if_true, hsplit, t1, t2, t3]

/-- Behaviour of `approve_result` from any status other than Completed fails with the
state error before anything else is examined. -/
theorem approve_result_wrong_status {caller : ℕ} {st : EscrowState}
    (h : st.req.status ≠ RequestStatus.Completed) :
    approve_result caller st = .error .InvalidRequestStatus := by
  unfold approve_result
  simp [h]

/-- A successful approval always lands in Approved. -/
theorem approve_result_ok_status {caller : ℕ} {st st' : EscrowState}
    (h : approve_result caller st = .ok st') :
    st'.req.status = RequestStatus.Approved := by
  unfold approve_result at h
  split at h
  · split at h
    · split at h
      · cases h
      split at h
      · cases h
      split at h
      · cases h
      split at h
      · cases h
      cases h
      rfl
    · cases h
  · cases h

/-- Behaviour of `dispute_result` succeeds from Completed for the stored requester. -/
theorem dispute_result_ok {caller rl : ℕ} {st : EscrowState} (hrl : rl ≤ 500)
    (hst : st.req.status = RequestStatus.Completed)
    (hu : st.req.user = caller) :
    dispute_result caller rl st =
      .ok { st with req := { st.req with status := RequestStatus.Disputed } } := by
  unfold dispute_result
  have h1 : ¬(rl > 500) := by omega
  simp [h1, hst, hu]

/-- Behaviour of `dispute_result` from any status other than Completed fails with the
state error (given a bounded reason, which is checked first). -/
theorem dispute_result_wrong_status {caller rl : ℕ} {st : EscrowState}
    (hrl : rl ≤ 500) (h : st.req.status ≠ RequestStatus.Completed) :
    dispute_result caller rl st = .error .InvalidRequestStatus := by
  unfold dispute_result
  have h1 : ¬(rl > 500) := by omega
  simp [h1, h]

/-- Behaviour of `cancel_request` succeeds from Pending for the stored requester and
refunds the escrowed amount. -/
theorem cancel_request_ok {caller : ℕ} {st : EscrowState}
    (hst : st.req.status = RequestStatus.Pending)
    (hu : st.req.user = caller)
    (hesc : st.req.amount ≤ st.escrow)
    (hub : st.userBal + st.req.amount < U64_MOD) :
    cancel_request caller st =
      .ok { st with
            req := { st.req with status := RequestStatus.Cancelled }
            escrow := st.escrow - st.req.amount
            userBal := st.userBal + st.req.amount } := by
  unfold cancel_request
  simp [hst, hu, transferLamports_some hesc hub]

/-- Behaviour of `cancel_request` from any status other than Pending fails with the
dedicated state error. -/
theorem cancel_request_wrong_status {caller : ℕ} {st : EscrowState}
    (h : st.req.status ≠ RequestStatus.Pending) :
    cancel_request caller st = .error .CannotCancelRequest := by
  unfold cancel_request
  simp [h]

/-! ## Royalty distribution lemmas -/

/-- Inversion of a successful `distribute_payment`: the running totals
were updated exactly (no wrap) and stayed in u64 range. -/
theorem distribute_ok_inv {st : RoyaltyState} {amount : ℕ}
    {out : RoyaltyState × DistributionRecord}
    (h : distribute_payment st amount = .ok out) :
    out.1.config.total_distributed = st.config.total_distributed + amount ∧
    st.config.total_distributed + amount < U64_MOD ∧
    out.1.config.total_transactions = st.config.total_transactions + 1 ∧
    st.config.total_transactions + 1 < U64_MOD := by
  unfold distribute_payment at h
  split at h
  · cases h
  split at h
  · cases h
  split at h
  · cases h
  split at h
  · cases h
  split at h
  · cases h
  split at h
  · cases h
  split at h
  · cases h
  split at h
  · cases h
  split at h
  · cases h
  rename_i x8 td htd x9 tt htt
  cases h
  obtain ⟨htd1, htd2⟩ := u64Add_ok htd
  obtain ⟨htt1, htt2⟩ := u64Add_ok htt
  subst htd1 htt1
  exact ⟨rfl, htd2, rfl, htt2⟩

/-- Sub-scores pass through every successful `moderate_rating` untouched. -/
theorem moderate_ok_subscores {r r' : Rating} {p p' : AgentReputationProfile}
    {b : Bool} {nl : ℕ}
    (h : moderate_rating r p b nl = .ok (r', p')) :
    p'.quality_score = p.quality_score ∧ p'.speed_score = p.speed_score ∧
    p'.value_score = p.value_score := by
  unfold moderate_rating at h
  split at h
  · cases h
  split at h
  · cases h
    exact ⟨rfl, rfl, rfl⟩
  split at h
  · split at h
    · cases h
    split at h
    · cases h
    cases h
    exact ⟨rfl, rfl, rfl⟩
  · cases h
    exact ⟨rfl, rfl, rfl⟩

/-! ## Claim theorems -/

/-- C1: for every amount and share pair with `s1 + s2 ≤ 100` whose u64
products stay in range, the three-way split yields the two floored
percentage parts and the remainder, and they sum back to the amount
exactly with the first two parts nonnegative; in particular
`split 1000 85 10 = (850, 100, 50)` and `split 1 85 10 = (0, 0, 1)`, and
both the fixed 85/10/5 escrow-approval path and the configured
royalty-distribution path are instances of this one calculator. -/
theorem C1_split_exactness (amount s1 s2 : ℕ) (h : s1 + s2 ≤ 100)
    (h1 : amount * s1 < U64_MOD) (h2 : amount * s2 < U64_MOD) :
    (∃ a b c, splitCalc amount s1 s2 = some (a, b, c) ∧
      a + b + c = amount ∧ 0 ≤ a ∧ 0 ≤ b) ∧
    splitCalc 1000 85 10 = some (850, 100, 50) ∧
    splitCalc 1 85 10 = some (0, 0, 1) ∧
    (∀ x, escrowSplit x = splitCalc x 85 10) ∧
    (∀ cfg : RoyaltyConfig, ∀ x,
      configSplit cfg x = splitCalc x cfg.creator_share cfg.platform_share) := by
  refine ⟨⟨_, _, _, splitCalc_spec h h1 h2, ?_, Nat.zero_le _, Nat.zero_le _⟩,
    by decide, by decide, fun _ => rfl, fun _ _ => rfl⟩
  have hab := @split_parts_le amount s1 s2 h
  omega

/-- Witness for C1 at the concrete input (1000, 85, 10). -/
theorem C1_split_exactness_witness : splitCalc 1000 85 10 = some (850, 100, 50) :=
  (C1_split_exactness 1000 85 10 (by decide) (by decide) (by decide)).2.1

/-- C2: each successful `submit_rating` updates the stored overall average
and each of the quality, speed, and value sub-scores by exactly the
step-wise truncating recurrence
`new = (old * old_count + value) / (old_count + 1)` and increments the
count, keeping every average at most 5 (so the recurrence keeps applying
along any sequence of calls started from a fresh profile); in particular
stars `[5, 3, 4]` yield overall averages 5, then 4, then 4. -/
theorem C2_incremental_average (p p' : AgentReputationProfile)
    (stars quality speed value review_len : ℕ)
    (hA : p.average_rating ≤ 5) (hQ : p.quality_score ≤ 5)
    (hS : p.speed_score ≤ 5) (hV : p.value_score ≤ 5)
    (h : submit_rating p stars quality speed value review_len = .ok p') :
    (p'.total_ratings = p.total_ratings + 1 ∧
     p'.average_rating = specStepAvg p.average_rating p.total_ratings stars ∧
     p'.quality_score = specStepAvg p.quality_score p.total_ratings quality ∧
     p'.speed_score = specStepAvg p.speed_score p.total_ratings speed ∧
     p'.value_score = specStepAvg p.value_score p.total_ratings value ∧
     p'.average_rating ≤ 5 ∧ p'.quality_score ≤ 5 ∧
     p'.speed_score ≤ 5 ∧ p'.value_score ≤ 5) ∧
    (submit_rating initialize_agent_reputation 5 5 5 5 0 = .ok ⟨1, 5, 5, 5, 5⟩ ∧
     submit_rating ⟨1, 5, 5, 5, 5⟩ 3 3 3 3 0 = .ok ⟨2, 4, 4, 4, 4⟩ ∧
     submit_rating ⟨2, 4, 4, 4, 4⟩ 4 4 4 4 0 = .ok ⟨3, 4, 4, 4, 4⟩) := by
  obtain ⟨hstars, hq, hs, hv, hrl, hupd⟩ := submit_rating_ok_inv h
  exact ⟨submit_update_spec hA hQ hS hV hstars.2 hq.2 hs.2 hv.2 hupd,
    by decide, by decide, by decide⟩

/-- Witness for C2: the first submission on a fresh profile. -/
theorem C2_incremental_average_witness :
    (⟨1, 5, 5, 5, 5⟩ : AgentReputationProfile).average_rating =
      specStepAvg 0 0 5 :=
  (C2_incremental_average initialize_agent_reputation ⟨1, 5, 5, 5, 5⟩ 5 5 5 5 0
    (by decide) (by decide) (by decide) (by decide) (by decide)).1.2.1

/-- C3: each lifecycle operation succeeds exactly from the statuses of the
transition diagram and lands in the listed target status
(`submit_result`: Pending or InProgress to Completed; `approve`:
Completed to Approved; `dispute`: Completed to Disputed; `cancel`:
Pending to Cancelled); from any other status the operation fails with the
state error and, the handler having returned an error, no state change
commits; in particular a second approval fails, as does `submit_result`
after Approved.  The numeric side conditions keep the approval and refund
transfers inside u64. -/
theorem C3_lifecycle (caller rl reason_len : ℕ) (st : EscrowState)
    (hrl : rl ≤ 2000) (hreason : reason_len ≤ 500)
    (h85 : st.req.amount * 85 < U64_MOD)
    (hesc : st.req.amount ≤ st.escrow)
    (hcb : st.creatorBal + st.req.amount < U64_MOD)
    (hpb : st.platformBal + st.req.amount < U64_MOD)
    (htb : st.treasuryBal + st.req.amount < U64_MOD)
    (hub : st.userBal + st.req.amount < U64_MOD) :
    ((st.req.status = RequestStatus.Pending ∨ st.req.status = RequestStatus.InProgress) →
      ∃ st', submit_result caller rl st = .ok st' ∧
        st'.req.status = RequestStatus.Completed) ∧
    (st.req.status ≠ RequestStatus.Pending → st.req.status ≠ RequestStatus.InProgress →
      submit_result caller rl st = .error .InvalidRequestStatus) ∧
    (st.req.status = RequestStatus.Completed → st.req.user = caller →
      ∃ st', approve_result caller st = .ok st' ∧
        st'.req.status = RequestStatus.Approved) ∧
    (st.req.status ≠ RequestStatus.Completed →
      approve_result caller st = .error .InvalidRequestStatus) ∧
    (st.req.status = RequestStatus.Completed → st.req.user = caller →
      ∃ st', dispute_result caller reason_len st = .ok st' ∧
        st'.req.status = RequestStatus.Disputed) ∧
    (st.req.status ≠ RequestStatus.Completed →
      dispute_result caller reason_len st = .error .InvalidRequestStatus) ∧
    (st.req.status = RequestStatus.Pending → st.req.user = caller →
      ∃ st', cancel_request caller st = .ok st' ∧
        st'.req.status = RequestStatus.Cancelled) ∧
    (st.req.status ≠ RequestStatus.Pending →
      cancel_request caller st = .error .CannotCancelRequest) ∧
    (∀ st', approve_result caller st = .ok st' →
      approve_result caller st' = .error .InvalidRequestStatus ∧
      submit_result caller rl st' = .error .InvalidRequestStatus) := by
  refine ⟨?_, ?_, ?_, ?_, ?_, ?_, ?_, ?_, ?_⟩
  · intro hst
    exact ⟨_, submit_result_ok hrl hst, rfl⟩
  · intro h1 h2
    exact submit_result_wrong_status hrl h1 h2
  · intro hst hu
    exact ⟨_, approve_result_ok hst hu h85 hesc hcb hpb htb, rfl⟩
  · exact approve_result_wrong_status
  · intro hst hu
    exact ⟨_, dispute_result_ok hreason hst hu, rfl⟩
  · exact dispute_result_wrong_status hreason
  · intro hst hu
    exact ⟨_, cancel_request_ok hst hu hesc hub, rfl⟩
  · exact cancel_request_wrong_status
  · intro st' h'
    have hA := approve_result_ok_status h'
    refine ⟨approve_result_wrong_status ?_, submit_result_wrong_status hrl ?_ ?_⟩ <;>
      simp [hA]

/-- Witness for C3: a Completed request approved by its requester. -/
theorem C3_lifecycle_witness :
    ∃ st', approve_result 1
      ⟨⟨7, 1, 100, RequestStatus.Completed, 3, 4⟩, 100, 0, 0, 0, 0⟩ = .ok st' ∧
      st'.req.status = RequestStatus.Approved :=
  ((C3_lifecycle 1 0 0 ⟨⟨7, 1, 100, RequestStatus.Completed, 3, 4⟩, 100, 0, 0, 0, 0⟩
    (by decide) (by decide) (by decide) (by decide) (by decide) (by decide)
    (by decide) (by decide)).2.2.1) rfl rfl

/-- C4 counterexample: the caller 2 differs from every stored principal of
the request (provider reference 1, requester 1), yet `submit_result`
succeeds and mutates the request instead of failing with an authorization
error — the handler contains no caller check at all. -/
theorem C4_counterexample :
    submit_result 2 4 ⟨⟨1, 1, 5, RequestStatus.Pending, 3, 0⟩, 5, 0, 0, 0, 0⟩ =
      .ok ⟨⟨1, 1, 5, RequestStatus.Completed, 3, 4⟩, 5, 0, 0, 0, 0⟩ ∧
    (2 : ℕ) ≠ 1 := by decide

/-- C4 (amended): the requester checks of approve, dispute and cancel and
the admin check of config mutation reject a mismatched caller with an
authorization error and no mutation, while `submit_result` performs no
caller-versus-stored-field check at all and succeeds for any signer from
a valid state. -/
theorem C4_authorization (caller rl reason_len : ℕ) (st : EscrowState)
    (cfg : RoyaltyConfig) (ocs opl ots opw otw : Option ℕ)
    (hrl : rl ≤ 2000) (hreason : reason_len ≤ 500) :
    (st.req.status = RequestStatus.Completed → st.req.user ≠ caller →
      approve_result caller st = .error .UnauthorizedUser) ∧
    (st.req.status = RequestStatus.Completed → st.req.user ≠ caller →
      dispute_result caller reason_len st = .error .UnauthorizedUser) ∧
    (st.req.status = RequestStatus.Pending → st.req.user ≠ caller →
      cancel_request caller st = .error .UnauthorizedUser) ∧
    (caller ≠ cfg.admin →
      update_config caller cfg ocs opl ots opw otw = .error .UnauthorizedAdmin) ∧
    ((st.req.status = RequestStatus.Pending ∨ st.req.status = RequestStatus.InProgress) →
      isOkE (submit_result caller rl st) = true) := by
  refine ⟨?_, ?_, ?_, ?_, ?_⟩
  · intro hst hu
    unfold approve_result
    simp [hst, hu]
  · intro hst hu
    unfold dispute_result
    have h1 : ¬(reason_len > 500) := by omega
    simp [h1, hst, hu]
  · intro hst hu
    unfold cancel_request
    simp [hst, hu]
  · intro hadm
    unfold update_config
    rw [if_neg hadm]
  · intro hst
    rw [submit_result_ok hrl hst]
    rfl

/-- Witness for C4 (amended): approval by a non-requester is rejected. -/
theorem C4_authorization_witness :
    approve_result 2 ⟨⟨7, 1, 100, RequestStatus.Completed, 3, 4⟩, 100, 0, 0, 0, 0⟩ =
      .error .UnauthorizedUser :=
  ((C4_authorization 2 0 0 ⟨⟨7, 1, 100, RequestStatus.Completed, 3, 4⟩, 100, 0, 0, 0, 0⟩
    ⟨85, 10, 5, 1, 2, 3, 0, 0, false⟩ none none none none none
    (by decide) (by decide)).1) rfl (by decide)

/-- C5: `moderate_rating` with `is_valid = false` removes the rating's
contribution from the overall average only: from a count of one it resets
both count and average to zero; from a larger count it subtracts the
stars from the accumulated total, decrements the count by exactly one and
truncating-divides; the quality, speed and value sub-scores are unchanged
on every successful path. -/
theorem C5_moderation (r : Rating) (p : AgentReputationProfile) (nl : ℕ)
    (hnl : nl ≤ 500)
    (hs : r.stars ≤ p.average_rating * p.total_ratings)
    (ha : p.average_rating ≤ 5)
    (hb : p.total_ratings < 2305843009213693952) :
    (p.total_ratings = 1 →
      moderate_rating r p false nl =
        .ok ({ r with is_moderated := true, is_valid := false },
             { p with total_ratings := 0, average_rating := 0 })) ∧
    (1 < p.total_ratings →
      moderate_rating r p false nl =
        .ok ({ r with is_moderated := true, is_valid := false },
             { p with
               total_ratings := p.total_ratings - 1
               average_rating :=
                 (p.average_rating * p.total_ratings - r.stars) /
                   (p.total_ratings - 1) })) ∧
    (∀ r' p2, moderate_rating r p false nl = .ok (r', p2) →
      p2.quality_score = p.quality_score ∧ p2.speed_score = p.speed_score ∧
      p2.value_score = p.value_score) := by
  refine ⟨?_, ?_, ?_⟩
  · intro h1
    exact moderate_invalid_one hnl (by omega)
  · intro h1
    exact moderate_invalid_gt1 hnl h1 hs ha hb
  · intro r' p2 h
    exact moderate_ok_subscores h

/-- Witness for C5: moderating a two-profile count down to one. -/
theorem C5_moderation_witness :
    moderate_rating ⟨2, 2, 2, 2, 0, false, false, false⟩ ⟨3, 3, 5, 5, 5⟩ false 0 =
      .ok (⟨2, 2, 2, 2, 0, false, true, false⟩, ⟨2, 3, 5, 5, 5⟩) :=
  (C5_moderation ⟨2, 2, 2, 2, 0, false, false, false⟩ ⟨3, 3, 5, 5, 5⟩ 0
    (by decide) (by decide) (by decide) (by decide)).2.1 (by decide)

/-- C6 counterexample: a fresh profile takes one rating with stars 5 and
quality/speed/value 4, then that sole rating is invalidated by moderation;
the profile ends with `total_ratings = 0` but `quality_score = 4`, so the
claimed invariant (all four averages zero whenever the count is zero) is
violated by the code. -/
theorem C6_counterexample :
    submit_rating initialize_agent_reputation 5 4 4 4 0 = .ok ⟨1, 5, 4, 4, 4⟩ ∧
    moderate_rating ⟨5, 4, 4, 4, 0, false, false, false⟩ ⟨1, 5, 4, 4, 4⟩ false 0 =
      .ok (⟨5, 4, 4, 4, 0, false, true, false⟩, ⟨0, 0, 4, 4, 4⟩) ∧
    (⟨0, 0, 4, 4, 4⟩ : AgentReputationProfile).total_ratings = 0 ∧
    (⟨0, 0, 4, 4, 4⟩ : AgentReputationProfile).quality_score ≠ 0 := by decide

/-- C6 (amended): restricted to the overall average the invariant holds:
`total_ratings = 0` implies `average_rating = 0` after initialization, and
the implication is preserved by every successful `submit_rating` and
`moderate_rating` (and trivially by `report_rating`, which never touches
the profile); the sub-scores are excluded because moderation leaves them
behind. -/
theorem C6_invariant (p p' : AgentReputationProfile) (r r' : Rating)
    (stars q s v rl : ℕ) (b : Bool) (nl : ℕ) :
    repInvariant initialize_agent_reputation ∧
    (submit_rating p stars q s v rl = .ok p' → repInvariant p') ∧
    (repInvariant p → moderate_rating r p b nl = .ok (r', p') → repInvariant p') := by
  refine ⟨fun _ => rfl, ?_, ?_⟩
  · intro h
    obtain ⟨_, _, _, _, _, hupd⟩ := submit_rating_ok_inv h
    obtain ⟨ht, _⟩ := submit_update_total hupd
    intro h0
    omega
  · intro hinv h
    rcases moderate_ok_cases h with hc | hc | hc
    · rw [hc]
      exact hinv
    · intro h0
      omega
    · intro _
      exact hc.2

/-- Witness for C6 (amended): the invariant after a first submission. -/
theorem C6_invariant_witness : repInvariant ⟨1, 5, 5, 5, 5⟩ :=
  (C6_invariant initialize_agent_reputation ⟨1, 5, 5, 5, 5⟩
    ⟨5, 5, 5, 5, 0, false, false, false⟩ ⟨5, 5, 5, 5, 0, false, false, false⟩
    5 5 5 5 0 false 0).2.1 (by decide)

/-- C7 counterexample: the triple (150, 150, 56) sums to 356, not 100, yet
`initialize_config` does not fail with `InvalidShareTotal`: the u8 share
addition overflows and the instruction aborts with the arithmetic trap
instead. -/
theorem C7_counterexample :
    initialize_config 150 150 56 1 2 3 = .error .ArithmeticOverflow ∧
    150 + 150 + 56 ≠ 100 ∧
    initialize_config 150 150 56 1 2 3 ≠ .error .InvalidShareTotal := by decide

/-- C7 (amended): for triples whose u8 sums stay in range (sum at most
255), `initialize_config` succeeds exactly on sum 100 and otherwise fails
with `InvalidShareTotal`; triples whose sum overflows the u8 additions
abort with the arithmetic trap instead (still without mutating anything);
`update_config` by the stored admin revalidates the post-update triple the
same way. -/
theorem C7_share_validation (a b c pw tw ad caller : ℕ) (cfg : RoyaltyConfig)
    (ocs opl ots opw otw : Option ℕ) :
    (a + b + c ≤ 255 →
      ((a + b + c = 100 →
         initialize_config a b c pw tw ad =
           .ok ⟨a, b, c, pw, tw, ad, 0, 0, false⟩) ∧
       (a + b + c ≠ 100 →
         initialize_config a b c pw tw ad = .error .InvalidShareTotal))) ∧
    (256 ≤ a + b + c → isOkE (initialize_config a b c pw tw ad) = false) ∧
    (caller = cfg.admin →
      ocs.getD cfg.creator_share + opl.getD cfg.platform_share +
        ots.getD cfg.treasury_share ≤ 255 →
      ((ocs.getD cfg.creator_share + opl.getD cfg.platform_share +
          ots.getD cfg.treasury_share = 100 →
         update_config caller cfg ocs opl ots opw otw =
           .ok { cfg with
                 creator_share := ocs.getD cfg.creator_share
                 platform_share := opl.getD cfg.platform_share
                 treasury_share := ots.getD cfg.treasury_share
                 platform_wallet := opw.getD cfg.platform_wallet
                 treasury_wallet := otw.getD cfg.treasury_wallet }) ∧
       (ocs.getD cfg.creator_share + opl.getD cfg.platform_share +
          ots.getD cfg.treasury_share ≠ 100 →
         update_config caller cfg ocs opl ots opw otw =
           .error .InvalidShareTotal))) := by
  refine ⟨?_, ?_, ?_⟩
  · intro h255
    have hab : a + b < U8_MOD := by unfold U8_MOD; omega
    have habc : a + b + c < U8_MOD := by unfold U8_MOD; omega
    constructor
    · intro h100
      simp only [initialize_config, u8Add_some hab, u8Add_some habc]
      rw [if_pos h100]
    · intro h100
      simp only [initialize_config, u8Add_some hab, u8Add_some habc]
      rw [if_neg h100]
  · intro h256
    by_cases hab : a + b < U8_MOD
    · have h2 : u8Add (a + b) c = none := by
        unfold u8Add
        rw [if_neg]
        unfold U8_MOD
        omega
      simp [initialize_config, u8Add_some hab, h2, isOkE]
    · have h1 : u8Add a b = none := by
        unfold u8Add
        rw [if_neg hab]
      simp [initialize_config, h1, isOkE]
  · intro hadm h255
    have hab : ocs.getD cfg.creator_share + opl.getD cfg.platform_share < U8_MOD := by
      unfold U8_MOD
      omega
    have habc : ocs.getD cfg.creator_share + opl.getD cfg.platform_share +
        ots.getD cfg.treasury_share < U8_MOD := by
      unfold U8_MOD
      omega
    constructor
    · intro h100
      unfold update_config
      rw [if_pos hadm]
      simp only [u8Add_some hab, u8Add_some habc]
      rw [if_pos h100]
    · intro h100
      unfold update_config
      rw [if_pos hadm]
      simp only [u8Add_some hab, u8Add_some habc]
      rw [if_neg h100]

/-- Witness for C7 (amended): the canonical 85/10/5 configuration. -/
theorem C7_share_validation_witness :
    initialize_config 85 10 5 1 2 3 = .ok ⟨85, 10, 5, 1, 2, 3, 0, 0, false⟩ :=
  ((C7_share_validation 85 10 5 1 2 3 0 ⟨85, 10, 5, 1, 2, 3, 0, 0, false⟩
    none none none none none).1 (by decide)).1 (by decide)

/-- C8: the split multiplication is NOT performed with a widened
intermediate: at the failing input `amount = u64::MAX` (with the fixed
creator share 85) the u64 product `amount * 85` leaves the u64 range, so
the calculator traps instead of returning the exact mathematical
`floor(amount * 85 / 100)` — the claim fails for large amounts, on the
escrow path as on the royalty path. -/
theorem C8_mul_not_widened :
    splitCalc 18446744073709551615 85 10 = none ∧
    U64_MOD ≤ 18446744073709551615 * 85 ∧
    escrowSplit 18446744073709551615 = none := by decide

/-- C9: overflow of the running totals in `distribute_payment` and of the
weighted-average accumulation in `submit_rating` makes the whole
instruction fail (no partial state escapes, since a handler returns
either an error or the complete new state), and successful runs update
the counters exactly, never wrapped modulo 2 to the 64. -/
theorem C9_overflow_trapped (st : RoyaltyState) (amount : ℕ)
    (p p' : AgentReputationProfile) (stars q s v rl : ℕ)
    (out : RoyaltyState × DistributionRecord) :
    (st.config.total_distributed + amount ≥ U64_MOD ∨
       st.config.total_transactions + 1 ≥ U64_MOD →
      isOkE (distribute_payment st amount) = false) ∧
    (distribute_payment st amount = .ok out →
      out.1.config.total_distributed = st.config.total_distributed + amount ∧
      out.1.config.total_transactions = st.config.total_transactions + 1) ∧
    (p.average_rating * p.total_ratings + stars ≥ U64_MOD →
      isOkE (submit_rating p stars q s v rl) = false) ∧
    (submit_rating p stars q s v rl = .ok p' →
      p'.total_ratings = p.total_ratings + 1) := by
  refine ⟨?_, ?_, ?_, ?_⟩
  · intro hov
    cases hE : distribute_payment st amount with
    | error e => rfl
    | ok o =>
      exfalso
      obtain ⟨_, h2, _, h4⟩ := distribute_ok_inv hE
      omega
  · intro h
    obtain ⟨h1, _, h3, _⟩ := distribute_ok_inv h
    exact ⟨h1, h3⟩
  · intro hov
    cases hE : submit_rating p stars q s v rl with
    | error e => rfl
    | ok o =>
      exfalso
      obtain ⟨_, _, _, _, _, hupd⟩ := submit_rating_ok_inv hE
      obtain ⟨_, h2⟩ := submit_update_total hupd
      omega
  · intro h
    obtain ⟨_, _, _, _, _, hupd⟩ := submit_rating_ok_inv h
    exact (submit_update_total hupd).1

/-- Witness for C9: a distribution whose running total would overflow. -/
theorem C9_overflow_trapped_witness :
    isOkE (distribute_payment
      ⟨⟨85, 10, 5, 1, 2, 3, 18446744073709551615, 0, false⟩, 100, 0, 0, 0⟩ 1) = false :=
  (C9_overflow_trapped
    ⟨⟨85, 10, 5, 1, 2, 3, 18446744073709551615, 0, false⟩, 100, 0, 0, 0⟩ 1
    ⟨0, 0, 0, 0, 0⟩ ⟨0, 0, 0, 0, 0⟩ 0 0 0 0 0
    (⟨⟨85, 10, 5, 1, 2, 3, 0, 0, false⟩, 0, 0, 0, 0⟩, ⟨0, 0, 0, 0⟩)).1
    (Or.inl (by decide))

/-- C10: `moderate_rating` never consults the rating's moderation flags:
an already-invalidated rating submitted again with `is_valid = false`
again decrements the count and again subtracts its stars through the
u64 expression `average_rating * total_ratings - stars`; the outcome is
literally independent of the stored `is_moderated` and `is_valid` values,
and a concrete double invalidation mutates the profile both times. -/
theorem C10_remoderation (r : Rating) (p : AgentReputationProfile) (nl : ℕ)
    (m2 v2 : Bool)
    (hmod : r.is_moderated = true) (hvld : r.is_valid = false)
    (hnl : nl ≤ 500) (hc : 1 < p.total_ratings)
    (hs : r.stars ≤ p.average_rating * p.total_ratings)
    (ha : p.average_rating ≤ 5)
    (hb : p.total_ratings < 2305843009213693952) :
    (moderate_rating r p false nl =
      .ok ({ r with is_moderated := true, is_valid := false },
           { p with
             total_ratings := p.total_ratings - 1
             average_rating :=
               (p.average_rating * p.total_ratings - r.stars) /
                 (p.total_ratings - 1) })) ∧
    (moderate_rating { r with is_moderated := m2, is_valid := v2 } p false nl =
      moderate_rating r p false nl) ∧
    (moderate_rating ⟨2, 2, 2, 2, 0, false, true, false⟩ ⟨3, 3, 5, 5, 5⟩ false 0 =
      .ok (⟨2, 2, 2, 2, 0, false, true, false⟩, ⟨2, 3, 5, 5, 5⟩)) ∧
    (moderate_rating ⟨2, 2, 2, 2, 0, false, true, false⟩ ⟨2, 3, 5, 5, 5⟩ false 0 =
      .ok (⟨2, 2, 2, 2, 0, false, true, false⟩, ⟨1, 4, 5, 5, 5⟩)) := by
  refine ⟨moderate_invalid_gt1 hnl hc hs ha hb, rfl, by decide, by decide⟩

/-- Witness for C10: re-invalidating an already-moderated rating. -/
theorem C10_remoderation_witness :
    moderate_rating ⟨2, 2, 2, 2, 0, false, true, false⟩ ⟨2, 3, 5, 5, 5⟩ false 0 =
      .ok (⟨2, 2, 2, 2, 0, false, true, false⟩, ⟨1, 4, 5, 5, 5⟩) :=
  (C10_remoderation ⟨2, 2, 2, 2, 0, false, true, false⟩ ⟨2, 3, 5, 5, 5⟩ 0 false false
    rfl rfl (by decide) (by decide) (by decide) (by decide) (by decide)).1

end AgentMarket
